import Mathlib

/-!
Verification development for the RepoAgent codebase-understanding assistant.

The definitions below are shallow embeddings of the Python source:
file-summary metadata extraction and complexity scoring
(src/code_indexer.py, class FileSummary), the vector-store write paths
(CodeIndexer.ingest_directory / CodeIndexer.index_file), the parallel
summarization coordinator (CodeIndexer.generate_single_file_summary /
generate_all_summaries_parallel), file collection predicates
(CodeIndexer.is_code_file / should_ignore), the confidence-gated query
router (src/summary.py, SmartSummaryAgent), and the MCP search tool
(src/mcp_server.py, search_code).

Conventions: Python machine integers are Nat with explicit mod where
overflow matters (the MD5 hash used for index_file ids is implemented
over Nat with mod 2^32); Python floats in the confidence heuristic are
embedded as exact rationals; Python strings are Lean Strings, with
helper functions mirroring the Python primitives (.lower, substring
containment, .split, .strip, os.path.splitext, pathlib suffix) on the
ASCII inputs the claims concern; raising code (dict key access,
attribute access on None) returns Except.
-/

set_option linter.unusedVariables false

namespace RepoAgent

/-- Python str.lower, restricted to ASCII case mapping (all inputs in the
claims are ASCII). -/
def lowerStr (s : String) : String := String.mk (s.data.map Char.toLower)

/-- Helper: the first list is an initial segment of the second. -/
def listPre : List Char → List Char → Bool
  | [], _ => true
  | _ :: _, [] => false
  | a :: as, b :: bs => a == b && listPre as bs

/-- Helper: the pattern occurs as a contiguous sublist. -/
def listSub (pat : List Char) : List Char → Bool
  | [] => pat.isEmpty
  | c :: rest => listPre pat (c :: rest) || listSub pat rest

/-- Python membership test on strings: pat in s (substring containment;
the empty pattern is contained in every string). -/
def inStr (pat s : String) : Bool := listSub pat.data s.data

/-- Python str.split whitespace set: space, tab, newline, carriage
return, vertical tab, form feed. -/
def isPyWs (c : Char) : Bool :=
  c == ' ' || c == '\t' || c == '\n' || c == '\r' || c == '\x0b' || c == '\x0c'

/-- Accumulator worker for pySplitWs. -/
def splitWsAux : List Char → List Char → List String
  | [], cur => if cur.isEmpty then [] else [String.mk cur.reverse]
  | c :: cs, cur =>
    if isPyWs c then
      if cur.isEmpty then splitWsAux cs []
      else String.mk cur.reverse :: splitWsAux cs []
    else splitWsAux cs (c :: cur)

/-- Python str.split with no argument: split on runs of whitespace,
discarding empty fields. -/
def pySplitWs (s : String) : List String := splitWsAux s.data []

/-- Accumulator worker for pySplitChar. -/
def splitCharAux (sep : Char) : List Char → List Char → List String
  | [], cur => [String.mk cur.reverse]
  | c :: cs, cur =>
    if c == sep then String.mk cur.reverse :: splitCharAux sep cs []
    else splitCharAux sep cs (c :: cur)

/-- Python str.split(sep) for a one-character separator: keeps empty
fields and always returns at least one field. -/
def pySplitChar (s : String) (sep : Char) : List String := splitCharAux sep s.data []

/-- Drop leading Python whitespace from a character list. -/
def dropWsHead : List Char → List Char
  | [] => []
  | c :: cs => if isPyWs c then dropWsHead cs else c :: cs

/-- Python str.strip() with no argument. -/
def pyStrip (s : String) : String :=
  String.mk (dropWsHead (dropWsHead s.data.reverse).reverse)

/-- Worker for rIdx, tracking the current index. -/
def rIdxAux (c : Char) : List Char → Nat → Option Nat
  | [], _ => none
  | x :: xs, i =>
    match rIdxAux c xs (i + 1) with
    | some j => some j
    | none => if x == c then some i else none

/-- Index of the last occurrence of a character (Python str.rfind,
with none in place of -1). -/
def rIdx (c : Char) (l : List Char) : Option Nat := rIdxAux c l 0

/-- os.path.splitext (posix): split off the extension of the last path
component; leading dots of the component never start an extension. -/
def splitext (p : String) : String × String :=
  let l := p.data
  let nameStart : Nat :=
    match rIdx '/' l with
    | some i => i + 1
    | none => 0
  match rIdx '.' l with
  | none => (p, "")
  | some d =>
    if nameStart ≤ d then
      if ((l.drop nameStart).take (d - nameStart)).any (fun c => c != '.') then
        (String.mk (l.take d), String.mk (l.drop d))
      else (p, "")
    else (p, "")

/-- Final component of a (relative, slash-separated) path. -/
def pathName (p : String) : String :=
  let l := p.data
  match rIdx '/' l with
  | some i => String.mk (l.drop (i + 1))
  | none => p

/-- pathlib.PurePath.suffix: the extension of the final component; empty
when the name has no dot, starts with its only dot, or ends with a dot. -/
def path_suffix (p : String) : String :=
  let name := (pathName p).data
  match rIdx '.' name with
  | none => ""
  | some i => if 0 < i ∧ i + 1 < name.length then String.mk (name.drop i) else ""

/-- Components of a relative slash-separated path
(pathlib.PurePath.parts for the relative paths the indexer walks). -/
def pathParts (p : String) : List String :=
  (pySplitChar p '/').filter (fun s => !s.isEmpty)

/-- Association-list lookup with default (Python dict.get). -/
def lookupD (m : List (String × String)) (k dflt : String) : String :=
  match m.find? (fun kv => kv.1 == k) with
  | some kv => kv.2
  | none => dflt

/-! FileSummary (src/code_indexer.py lines 29-635): language detection,
file-type classification, purpose extraction, complexity scoring. -/

/-- Extension-to-language table of FileSummary._detect_language. -/
def language_map : List (String × String) :=
  [(".py", "python"), (".js", "javascript"), (".ts", "typescript"),
   (".html", "html"), (".css", "css"), (".java", "java"), (".c", "c"),
   (".cpp", "cpp"), (".h", "c"), (".hpp", "cpp"), (".rb", "ruby"),
   (".go", "go"), (".rs", "rust"), (".php", "php"), (".sh", "bash"),
   (".json", "json"), (".md", "markdown"), (".yml", "yaml"),
   (".yaml", "yaml"), (".xml", "xml"), (".txt", "text"), (".sql", "sql"),
   (".dockerfile", "docker"), (".makefile", "make"), (".cmake", "cmake"),
   (".toml", "toml"), (".ini", "ini"), (".cfg", "config")]

/-- FileSummary._detect_language: language from the lowercased
os.path.splitext extension, defaulting to text. -/
def detect_language (file_path : String) : String :=
  lookupD language_map (lowerStr (splitext file_path).2) "text"

/-- FileSummary._extract_metadata_from_summary, file_type branch: the
ordered classification rules over the detected language and the
lowercased summary text. -/
def extract_file_type (language : String) (ai_summary : String) : String :=
  let summary_lower := lowerStr ai_summary
  if ["json", "yaml", "xml", "toml", "ini", "cfg"].contains language then "configuration"
  else if language == "markdown" then "documentation"
  else if inStr "class" summary_lower && inStr "function" summary_lower then "mixed_code"
  else if inStr "class" summary_lower then "class_based"
  else if inStr "function" summary_lower then "functional"
  else if language == "sql" then "database"
  else if language == "docker" then "container"
  else "script"

/-- FileSummary._extract_metadata_from_summary, purpose branch: text up
to the first period, stripped, with a period appended (str.split always
returns a nonempty list, so the else arm of the source is dead; it is
kept for totality). -/
def extract_purpose (ai_summary : String) : String :=
  match pySplitChar ai_summary '.' with
  | s0 :: _ => pyStrip s0 ++ "."
  | [] =>
    if 100 < ai_summary.length then String.mk (ai_summary.data.take 100) ++ "..."
    else ai_summary

/-- Python len(content.split(chr(10))): one more than the number of
newline characters. -/
def line_count (content : String) : Nat :=
  (content.data.filter (fun c => c == '\n')).length + 1

/-- The (indicator, bonus) table of FileSummary._calculate_ai_complexity. -/
def complexity_indicators : List (String × Nat) :=
  [("multiple classes", 5), ("inheritance", 3), ("design pattern", 4),
   ("algorithm", 3), ("database", 2), ("api", 2), ("authentication", 3),
   ("configuration", 1), ("complex logic", 4), ("state management", 3),
   ("async", 2), ("threading", 4), ("security", 2), ("performance", 2)]

/-- FileSummary._calculate_ai_complexity: base score from line count
(integer division, capped at 15) plus the bonus of each indicator phrase
found in the lowercased summary, the total capped at 25. -/
def calculate_ai_complexity (lineCount : Nat) (ai_summary : String) : Nat :=
  let summary_lower := lowerStr ai_summary
  let base_score := min (lineCount / 25) 15
  let score := complexity_indicators.foldl
    (fun acc ind => if inStr ind.1 summary_lower then acc + ind.2 else acc) base_score
  min score 25

/-! MD5 (hashlib.md5(...).hexdigest() as used by CodeIndexer.index_file),
implemented over Nat with explicit mod 2^32, RFC 1321 reference
algorithm. Strings are converted to bytes by codepoint, which agrees
with UTF-8 on the ASCII paths the claims concern. -/

/-- 2^32, the word modulus of MD5. -/
def M32 : Nat := 4294967296

/-- Rotate a 32-bit word (as a Nat below 2^32) left by n bits. -/
def rotl32 (x n : Nat) : Nat := ((x <<< n) % M32) ||| (x >>> (32 - n))

/-- The 64 MD5 sine-derived round constants. -/
def md5K : List Nat :=
  [0xd76aa478, 0xe8c7b756, 0x242070db, 0xc1bdceee,
   0xf57c0faf, 0x4787c62a, 0xa8304613, 0xfd469501,
   0x698098d8, 0x8b44f7af, 0xffff5bb1, 0x895cd7be,
   0x6b901122, 0xfd987193, 0xa679438e, 0x49b40821,
   0xf61e2562, 0xc040b340, 0x265e5a51, 0xe9b6c7aa,
   0xd62f105d, 0x02441453, 0xd8a1e681, 0xe7d3fbc8,
   0x21e1cde6, 0xc33707d6, 0xf4d50d87, 0x455a14ed,
   0xa9e3e905, 0xfcefa3f8, 0x676f02d9, 0x8d2a4c8a,
   0xfffa3942, 0x8771f681, 0x6d9d6122, 0xfde5380c,
   0xa4beea44, 0x4bdecfa9, 0xf6bb4b60, 0xbebfbc70,
   0x289b7ec6, 0xeaa127fa, 0xd4ef3085, 0x04881d05,
   0xd9d4d039, 0xe6db99e5, 0x1fa27cf8, 0xc4ac5665,
   0xf4292244, 0x432aff97, 0xab9423a7, 0xfc93a039,
   0x655b59c3, 0x8f0ccc92, 0xffeff47d, 0x85845dd1,
   0x6fa87e4f, 0xfe2ce6e0, 0xa3014314, 0x4e0811a1,
   0xf7537e82, 0xbd3af235, 0x2ad7d2bb, 0xeb86d391]

/-- The 64 MD5 per-round shift amounts. -/
def md5S : List Nat :=
  [7, 12, 17, 22, 7, 12, 17, 22, 7, 12, 17, 22, 7, 12, 17, 22,
   5, 9, 14, 20, 5, 9, 14, 20, 5, 9, 14, 20, 5, 9, 14, 20,
   4, 11, 16, 23, 4, 11, 16, 23, 4, 11, 16, 23, 4, 11, 16, 23,
   6, 10, 15, 21, 6, 10, 15, 21, 6, 10, 15, 21, 6, 10, 15, 21]

/-- MD5 round function (bitwise complement is xor with the all-ones
32-bit word). -/
def md5F (i b c d : Nat) : Nat :=
  if i < 16 then (b &&& c) ||| (((M32 - 1) ^^^ b) &&& d)
  else if i < 32 then (d &&& b) ||| (((M32 - 1) ^^^ d) &&& c)
  else if i < 48 then b ^^^ c ^^^ d
  else c ^^^ (b ||| ((M32 - 1) ^^^ d))

/-- MD5 message-word index for round i. -/
def md5g (i : Nat) : Nat :=
  if i < 16 then i
  else if i < 32 then (5 * i + 1) % 16
  else if i < 48 then (3 * i + 5) % 16
  else (7 * i) % 16

/-- n bytes of x, little-endian. -/
def leBytes : Nat → Nat → List Nat
  | 0, _ => []
  | n + 1, x => (x % 256) :: leBytes n (x / 256)

/-- MD5 padding: append 0x80, zero bytes to 56 mod 64, then the bit
length as 8 little-endian bytes. -/
def md5Pad (msg : List Nat) : List Nat :=
  let l := msg.length
  let padLen := (119 - l % 64) % 64
  msg ++ [128] ++ List.replicate padLen 0 ++ leBytes 8 ((l * 8) % (2 ^ 64))

/-- Word j of a 64-byte chunk (4 bytes, little-endian). -/
def chunkWord (chunk : List Nat) (j : Nat) : Nat :=
  chunk.getD (4 * j) 0 + 256 * chunk.getD (4 * j + 1) 0 +
    65536 * chunk.getD (4 * j + 2) 0 + 16777216 * chunk.getD (4 * j + 3) 0

/-- The four MD5 state registers. -/
structure MD5St where
  a : Nat
  b : Nat
  c : Nat
  d : Nat
deriving DecidableEq

/-- One MD5 round on the register state. -/
def md5Round (chunk : List Nat) (st : MD5St) (i : Nat) : MD5St :=
  let f := (md5F i st.b st.c st.d + st.a + md5K.getD i 0 + chunkWord chunk (md5g i)) % M32
  ⟨st.d, (st.b + rotl32 f (md5S.getD i 0)) % M32, st.b, st.c⟩

/-- Process one 64-byte chunk, adding the round output into the state. -/
def md5Chunk (st : MD5St) (chunk : List Nat) : MD5St :=
  let r := (List.range 64).foldl (md5Round chunk) st
  ⟨(st.a + r.a) % M32, (st.b + r.b) % M32, (st.c + r.c) % M32, (st.d + r.d) % M32⟩

/-- Process the padded message 64 bytes at a time (fuel-driven structural
recursion; fuel at least the byte count suffices since each step
consumes 64 bytes). -/
def md5Chunks : Nat → MD5St → List Nat → MD5St
  | _, st, [] => st
  | 0, st, b :: rest => md5Chunk st (b :: rest)
  | Nat.succ fuel, st, b :: rest =>
    md5Chunks fuel (md5Chunk st ((b :: rest).take 64)) ((b :: rest).drop 64)

/-- Hex digit character (lowercase). -/
def hexChar (n : Nat) : Char := "0123456789abcdef".data.getD n '0'

/-- Lowercase hex rendering of a byte list. -/
def bytesToHex (bs : List Nat) : String :=
  String.mk (bs.foldr (fun b acc => hexChar (b / 16) :: hexChar (b % 16) :: acc) [])

/-- MD5 hex digest of a byte list. -/
def md5hexBytes (msg : List Nat) : String :=
  let padded := md5Pad msg
  let st := md5Chunks padded.length ⟨0x67452301, 0xefcdab89, 0x98badcfe, 0x10325476⟩ padded
  bytesToHex (leBytes 4 st.a ++ leBytes 4 st.b ++ leBytes 4 st.c ++ leBytes 4 st.d)

/-- hashlib.md5(s.encode()).hexdigest() for the ASCII strings the
indexer hashes (bytes are the character codepoints). -/
def md5hex (s : String) : String := md5hexBytes (s.data.map Char.toNat)

/-! File collection predicates (CodeIndexer.IGNORE_PATTERNS,
CODE_EXTENSIONS, should_ignore, is_code_file; src/code_indexer.py
lines 641-720, 783-793). -/

/-- CodeIndexer.IGNORE_PATTERNS. -/
def IGNORE_PATTERNS : List String :=
  [".DS_Store", ".env", ".git", ".gitignore", ".vscode", ".idea",
   "__pycache__", ".pytest_cache", "node_modules", ".npm",
   ".Trash", ".Spotlight-V100", ".fseventsd", ".DocumentRevisions-V100",
   ".TemporaryItems", ".apdisk", "Thumbs.db", "Desktop.ini"]

/-- CodeIndexer.CODE_EXTENSIONS: the fixed allow-set of lowercased
path suffixes. -/
def CODE_EXTENSIONS : List String :=
  [".py", ".js", ".ts", ".jsx", ".tsx", ".java", ".cpp", ".c", ".h",
   ".cs", ".php", ".rb", ".go", ".rs", ".swift", ".kt", ".scala",
   ".sh", ".bash", ".zsh", ".ps1", ".sql", ".html", ".css", ".scss",
   ".less", ".xml", ".json", ".yaml", ".yml", ".toml", ".ini", ".cfg",
   ".md", ".rst", ".txt", ".dockerfile", ".makefile", ".cmake"]

/-- CodeIndexer.should_ignore: some path component matches the ignore
set (the source checks dot-components against the set and then all
components against the same set; both checks are kept). -/
def should_ignore (path : String) : Bool :=
  (pathParts path).any (fun part =>
    (listPre ['.'] part.data && IGNORE_PATTERNS.contains part)
      || IGNORE_PATTERNS.contains part)

/-- CodeIndexer.is_code_file: membership of the lowercased
pathlib suffix in CODE_EXTENSIONS. -/
def is_code_file (file_path : String) : Bool :=
  CODE_EXTENSIONS.contains (lowerStr (path_suffix file_path))

/-- The per-file filter of CodeIndexer.ingest_directory (line 792): a
walked file is collected iff it is not ignored and is a code file. -/
def collector_processes (file_path : String) : Bool :=
  !should_ignore file_path && is_code_file file_path

/-! Summary store model (the chromadb collection as the spec's black-box
vector store, a list of id/document/metadata records in insertion
order). collection.add skips a record whose id is already present
(chromadb logs "Insert of existing embedding ID" and keeps the stored
record); collection.delete removes by id. -/

/-- The metadata fields CodeIndexer stores with each summary
(src/code_indexer.py lines 820-827 and 913-920). -/
structure SummaryMeta where
  file_path : String
  language : String
  file_type : String
  lineCount : Nat
  complexity_score : Nat
  purpose : String
deriving DecidableEq

/-- One stored record: id, embedded document text, metadata. -/
structure StoreRecord where
  id : String
  document : String
  metadata : SummaryMeta
deriving DecidableEq

/-- collection.add: append each record whose id is not already present,
left to right. -/
def collAdd (coll : List StoreRecord) (recs : List StoreRecord) : List StoreRecord :=
  recs.foldl (fun c r => if c.any (fun x => x.id == r.id) then c else c ++ [r]) coll

/-- FileSummary construction as the indexer uses it: the AI summary text
is produced by the external completion service (or the deterministic
fallback), abstracted as the oracle gen; language, file type, purpose
and complexity are computed from it exactly as in the source. -/
def mkSummaryMeta (gen : String → String → String) (file_path content : String) :
    SummaryMeta :=
  let ai_summary := gen file_path content
  let language := detect_language file_path
  { file_path := file_path
    language := language
    file_type := extract_file_type language ai_summary
    lineCount := line_count content
    complexity_score := calculate_ai_complexity (line_count content) ai_summary
    purpose := extract_purpose ai_summary }

/-- The record ingest_directory writes for the i-th collected summary:
its id is the positional string file_i, and the document is
FileSummary.to_summary_text(), i.e. the AI summary itself. -/
def mkIngestRecord (gen : String → String → String) (i : Nat) (pc : String × String) :
    StoreRecord :=
  { id := "file_" ++ Nat.repr i
    document := gen pc.1 pc.2
    metadata := mkSummaryMeta gen pc.1 pc.2 }

/-- The records ingest_directory prepares from the collected
(relative path, content) pairs, ids enumerated in walk order. -/
def ingestRecords (gen : String → String → String) (files : List (String × String)) :
    List StoreRecord :=
  files.enum.map (fun ip => mkIngestRecord gen ip.1 ip.2)

/-- The batched add loop of ingest_directory (batch size 100),
fuel-driven structural recursion as for md5Chunks. -/
def addInBatches : Nat → List StoreRecord → List StoreRecord → List StoreRecord
  | _, coll, [] => coll
  | 0, coll, r :: rest => collAdd coll (r :: rest)
  | Nat.succ fuel, coll, r :: rest =>
    addInBatches fuel (collAdd coll ((r :: rest).take 100)) ((r :: rest).drop 100)

/-- CodeIndexer.ingest_directory, store effect (lines 752-840): the
collection is cleared, then the records for the collected files are
added in batches of 100. The argument is the list of collected
(relative path, content) pairs in walk order (the os.walk phase is the
File Collector; its per-file filter is collector_processes). -/
def ingest_directory (gen : String → String → String)
    (files : List (String × String)) : List StoreRecord :=
  let recs := ingestRecords gen files
  addInBatches recs.length [] recs

/-- The record index_file writes (src/code_indexer.py lines 903-921):
its id is file_ followed by the MD5 hex digest of the relative path,
and the document is the summary text. -/
def indexRecord (gen : String → String → String) (relative_path content : String) :
    StoreRecord :=
  { id := "file_" ++ md5hex relative_path
    document := gen relative_path content
    metadata := mkSummaryMeta gen relative_path content }

/-- CodeIndexer.index_file (lines 872-933), store effect, for a readable
file given as (relative path, content): skips non-code files; when
force_reindex is set, first deletes every record whose metadata
file_path matches; then adds the single record with the MD5-derived id.
Returns the success flag and the new collection. -/
def index_file (gen : String → String → String) (coll : List StoreRecord)
    (relative_path content : String) (force_reindex : Bool) :
    Bool × List StoreRecord :=
  if !is_code_file relative_path then (false, coll)
  else
    let coll1 := if force_reindex then
      coll.filter (fun r => r.metadata.file_path != relative_path) else coll
    (true, collAdd coll1 [indexRecord gen relative_path content])

/-- Number of records stored for a given file path. -/
def count_for_path (coll : List StoreRecord) (p : String) : Nat :=
  (coll.filter (fun r => r.metadata.file_path == p)).length

/-! Python dictionaries for search results. CodeIndexer.search returns a
list of dicts with exactly the keys file_path, summary, language,
file_type, line_count, complexity_score, purpose; the router consumes
them with a mix of raising item access and .get with default, so the
dicts are embedded as key/value association lists with raising and
defaulting lookups. -/

/-- Python values occurring in the summary dicts. -/
inductive PyVal where
  | vs (s : String)
  | vn (n : Nat)
  | vlist (l : List String)
deriving DecidableEq

/-- A Python dict with string keys. -/
abbrev PyDict := List (String × PyVal)

/-- Python exceptions the embedded code can raise. -/
inductive PyErr where
  | keyError (k : String)
  | attributeError (msg : String)
  | typeError (msg : String)
  | zeroDivisionError (msg : String)
deriving DecidableEq

/-- Raising item access d[k]. -/
def dictGet (d : PyDict) (k : String) : Except PyErr PyVal :=
  match d.find? (fun kv => kv.1 == k) with
  | some kv => Except.ok kv.2
  | none => Except.error (PyErr.keyError k)

/-- d.get(k, default). -/
def dictGetD (d : PyDict) (k : String) (dflt : PyVal) : PyVal :=
  match d.find? (fun kv => kv.1 == k) with
  | some kv => kv.2
  | none => dflt

/-- d.get(k, s) where the stored value is a string, as in
summary.get(quoted summary, empty) of the confidence evaluator (the
dicts built by search always hold a string there). -/
def dictGetStrD (d : PyDict) (k : String) (dflt : String) : String :=
  match dictGetD d k (PyVal.vs dflt) with
  | PyVal.vs s => s
  | PyVal.vn n => Nat.repr n
  | PyVal.vlist _ => dflt

/-- Rendering of a PyVal in an f-string. -/
def renderVal : PyVal → String
  | PyVal.vs s => s
  | PyVal.vn n => Nat.repr n
  | PyVal.vlist _ => ""

/-- The dict CodeIndexer.search builds per result
(src/code_indexer.py lines 852-860). -/
def searchResultDict (file_path summary language file_type : String)
    (lineCount complexity : Nat) (purpose : String) : PyDict :=
  [("file_path", PyVal.vs file_path), ("summary", PyVal.vs summary),
   ("language", PyVal.vs language), ("file_type", PyVal.vs file_type),
   ("line_count", PyVal.vn lineCount), ("complexity_score", PyVal.vn complexity),
   ("purpose", PyVal.vs purpose)]

/-! SmartSummaryAgent (src/summary.py): confidence evaluation,
routing decision, context building, fallback, query counter. -/

/-- The detail-keyword list declared (but never read) by
_evaluate_summary_confidence. -/
def detail_keywords : List String :=
  ["how", "what", "why", "explain", "describe", "show", "implement",
   "works", "configure", "setup"]

/-- The code-structure keyword list of _evaluate_summary_confidence. -/
def code_keywords : List String :=
  ["class", "function", "method", "interface", "api", "endpoint",
   "authentication", "database"]

/-- The lowercase structural markers scanned by
_evaluate_summary_confidence. -/
def structure_markers : List String :=
  ["**", "purpose:", "methods:", "dependencies:", "use case:"]

/-- Per-summary confidence contribution of
SmartSummaryAgent._evaluate_summary_confidence (lines 161-185):
length component (chars/1000 capped at 1, weight 0.3), structural
bonus 0.4, query-word overlap fraction (substring matches, weight 0.2),
and code-keyword bonus 0.3. -/
def summary_confidence_one (query_words : List String) (d : PyDict) : ℚ :=
  let summary_text := lowerStr (dictGetStrD d "summary" "")
  let length_score : ℚ := min ((summary_text.length : ℚ) / 1000) 1
  let structure_score : ℚ :=
    if structure_markers.any (fun m => inStr m summary_text) then 0.4 else 0
  let matching_words := (query_words.filter (fun w => inStr w summary_text)).length
  let relevance_score : ℚ :=
    if query_words.length == 0 then 0
    else (matching_words : ℚ) / (query_words.length : ℚ)
  let detail_score : ℚ :=
    if code_keywords.any (fun k => inStr k summary_text) then 0.3 else 0
  length_score * 0.3 + structure_score + relevance_score * 0.2 + detail_score

/-- SmartSummaryAgent._evaluate_summary_confidence (lines 148-196):
0 for an empty result set, else the mean per-summary score, multiplied
by 1.2 when more than one summary was retrieved, clamped at 1. -/
def evaluate_summary_confidence (query : String) (summaries : List PyDict) : ℚ :=
  if summaries.isEmpty then 0
  else
    let query_words := pySplitWs (lowerStr query)
    let total_confidence :=
      summaries.foldl (fun t d => t + summary_confidence_one query_words d) 0
    let avg_confidence := total_confidence / (summaries.length : ℚ)
    let avg_confidence :=
      if 1 < summaries.length then avg_confidence * 1.2 else avg_confidence
    min avg_confidence 1

/-- The case-sensitive structured indicators of the routing decision
(src/summary.py line 215). -/
def structured_indicators : List String :=
  ["**", "Methods:", "Dependencies:", "Use Case:", "Purpose:"]

/-- Whether any retrieved summary contains a structured indicator
(lines 216-219). -/
def has_structured_summaries (summaries : List PyDict) : Bool :=
  summaries.any (fun r =>
    structured_indicators.any (fun ind => inStr ind (dictGetStrD r "summary" "")))

/-- The routing decision of query_with_summary_first (lines 210-224):
fast path iff confidence reaches the effective threshold (0.4 when some
summary is structured, else the configured base threshold) or some
summary is structured. -/
def route_decision (confidence_threshold : ℚ) (query : String)
    (summary_results : List PyDict) : Bool :=
  let confidence := evaluate_summary_confidence query summary_results
  let hasStructured := has_structured_summaries summary_results
  let effective_threshold : ℚ := if hasStructured then 0.4 else confidence_threshold
  decide (effective_threshold ≤ confidence) || hasStructured

/-- Python str.join over a list rendering (', '.join). -/
def joinComma : List String → String
  | [] => ""
  | s :: rest => rest.foldl (fun acc x => acc ++ ", " ++ x) s

/-- Two-decimal rendering used for the confidence field. The source
formats a float with :.2f; this arm is unreachable for the dicts search
produces (the keywords access raises first), and the rendering here is
a plain placeholder for totality. -/
def renderVal2f : PyVal → String
  | PyVal.vs s => s
  | PyVal.vn n => Nat.repr n ++ ".00"
  | PyVal.vlist _ => ""

/-- ', '.join applied to a dict value: joins a list of strings; joining
a string joins its characters (Python iterates the string); joining a
number raises TypeError. -/
def joinVal : PyVal → Except PyErr String
  | PyVal.vlist l => Except.ok (joinComma l)
  | PyVal.vs s => Except.ok (joinComma (s.data.map (fun c => String.mk [c])))
  | PyVal.vn _ => Except.error (PyErr.typeError "can only join an iterable of strings")

/-- One entry of SmartSummaryAgent._build_summary_context
(lines 241-254), with the source's raising item accesses in evaluation
order: summary, file_path, file_type, language, line_count,
complexity_score are present in search results; keywords,
confidence_score and category are legacy CodeSummary fields that search
results do not carry, so the keywords access raises KeyError for every
dict search produces. -/
def render_context_entry (summary : PyDict) : Except PyErr String := do
  let vSummary ← dictGet summary "summary"
  let vPath ← dictGet summary "file_path"
  let vType ← dictGet summary "file_type"
  let vLang ← dictGet summary "language"
  let vLines ← dictGet summary "line_count"
  let vCplx ← dictGet summary "complexity_score"
  let vPurpose := dictGetD summary "purpose" (PyVal.vs "No purpose specified")
  let vMethods := dictGetD summary "methods" (PyVal.vs "No methods specified")
  let vDeps := dictGetD summary "dependencies" (PyVal.vs "No dependencies specified")
  let vUse := dictGetD summary "use_case" (PyVal.vs "No use case specified")
  let vPurpose2 := dictGetD summary "purpose" (PyVal.vs "No purpose specified")
  let vKeywords ← dictGet summary "keywords"
  let keywordsJoined ← joinVal vKeywords
  let vConf ← dictGet summary "confidence_score"
  let vCat ← dictGet summary "category"
  pure ("**Summary:** " ++ renderVal vSummary ++ "\n" ++
    "**File:** " ++ renderVal vPath ++ "\n" ++
    "**Type:** " ++ renderVal vType ++ " (" ++ renderVal vLang ++ ")\n" ++
    "**Lines:** " ++ renderVal vLines ++ " | **Complexity:** " ++ renderVal vCplx ++ "\n" ++
    "**Purpose:** " ++ renderVal vPurpose ++ "\n" ++
    "**Methods:** " ++ renderVal vMethods ++ "\n" ++
    "**Dependencies:** " ++ renderVal vDeps ++ "\n" ++
    "**Use Case:** " ++ renderVal vUse ++ "\n" ++
    "**Purpose:** " ++ renderVal vPurpose2 ++ "\n" ++
    "**Keywords:** " ++ keywordsJoined ++ "\n" ++
    "**Confidence:** " ++ renderVal2f vConf ++ "\n" ++
    "**Category:** " ++ renderVal vCat ++ "\n" ++
    "\n")

/-- SmartSummaryAgent._build_summary_context (lines 238-255): concatenate
the rendered entries; the query parameter is unused in the source. -/
def build_summary_context (summaries : List PyDict) (query : String) :
    Except PyErr String :=
  summaries.foldlM (fun context d => do
    let entry ← render_context_entry d
    pure (context ++ entry)) ""

/-- SmartSummaryAgent._generate_summary_response (lines 257-259); the
query parameter is unused in the source. -/
def generate_summary_response (query context : String) : String :=
  "📋 **Summary Response**\n\n" ++ context

/-- The final fallback message of _fallback_to_repository
(lines 270-282). -/
def FINAL_FALLBACK_HEAD : String :=
  "🔍 **Repository Analysis**\n\nI couldn\x27t find a good summary for your query: \x27"

/-- Tail of the final fallback message. -/
def FINAL_FALLBACK_TAIL : String :=
  "\x27\n\n**Suggestions:**\n• Try rephrasing your question with specific keywords\n• Ask about specific files, functions, or concepts\n• Use \x27python3 regenerate_ai_summaries.py\x27 to improve summaries\n\n**Example queries:**\n• \x27What does the config.yaml file configure?\x27\n• \x27Explain the main classes in this project\x27\n• \x27How does authentication work?\x27"

/-- Agent state: the configured base threshold, the query-frequency
counter (a defaultdict from query strings to counts), and the optional
fallback assistant, abstracted as a query function that may raise. -/
structure AgentState where
  confidence_threshold : ℚ
  query_patterns : List (String × Nat)
  repo_assistant : Option (String → Except String String)

/-- Count held by the query-frequency counter (defaultdict(int):
missing keys read as 0). -/
def patternCount (ps : List (String × Nat)) (q : String) : Nat :=
  match ps.find? (fun kv => kv.1 == q) with
  | some kv => kv.2
  | none => 0

/-- self.query_patterns[query] += 1 on the defaultdict. -/
def bumpPattern (ps : List (String × Nat)) (q : String) : List (String × Nat) :=
  if ps.any (fun kv => kv.1 == q) then
    ps.map (fun kv => if kv.1 == q then (kv.1, kv.2 + 1) else kv)
  else ps ++ [(q, 1)]

/-- SmartSummaryAgent._fallback_to_repository (lines 261-282): delegate
to the repository assistant when available, converting its failure into
the final fallback message; without an assistant, return the final
fallback message. -/
def fallback_to_repository (st : AgentState) (query : String) : String :=
  match st.repo_assistant with
  | some query_code =>
    match query_code query with
    | Except.ok r => r
    | Except.error _ => FINAL_FALLBACK_HEAD ++ query ++ FINAL_FALLBACK_TAIL
  | none => FINAL_FALLBACK_HEAD ++ query ++ FINAL_FALLBACK_TAIL

/-- Message of the AttributeError Python raises when
query_with_summary_first runs with self.indexer = None. -/
def ATTR_ERR_MSG : String :=
  "\x27NoneType\x27 object has no attribute \x27search\x27"

/-- SmartSummaryAgent.query_with_summary_first (lines 198-236). The
indexer is None when no codebase is indexed (get_indexed_codebase
returns None for an empty store); a present indexer is abstracted by
its search function, the black-box vector query. Returns
(response, used_cache) plus the updated agent state, or the raised
Python exception. -/
def query_with_summary_first (st : AgentState)
    (indexer : Option (String → Nat → List PyDict))
    (query : String) (max_results : Nat) :
    Except PyErr (String × Bool × AgentState) :=
  match indexer with
  | none => Except.error (PyErr.attributeError ATTR_ERR_MSG)
  | some searchFn =>
    let summary_results := searchFn query max_results
    if route_decision st.confidence_threshold query summary_results then
      match build_summary_context summary_results query with
      | Except.error e => Except.error e
      | Except.ok context =>
        let response := generate_summary_response query context
        let st1 := { st with query_patterns := bumpPattern st.query_patterns query }
        Except.ok (response, true, st1)
    else
      Except.ok (fallback_to_repository st query, false, st)

/-! mcp_server.search_code (src/mcp_server.py lines 30-61). -/

/-- The not-indexed response of the MCP tools. -/
def NOT_INDEXED_MSG : String :=
  "No codebase has been indexed yet. Please upload a repository first."

/-- Formatting of one search result in search_code (lines 55-59),
with the source's raising item accesses. -/
def render_search_result (result : PyDict) : Except PyErr String := do
  let vPath ← dictGet result "file_path"
  let vLang ← dictGet result "language"
  let vType ← dictGet result "file_type"
  let vLines ← dictGet result "line_count"
  let vCplx ← dictGet result "complexity_score"
  let vPurpose ← dictGet result "purpose"
  pure ("📄 " ++ renderVal vPath ++ "\n" ++
    "Language: " ++ renderVal vLang ++ ", Type: " ++ renderVal vType ++ "\n" ++
    "Lines: " ++ renderVal vLines ++ ", Complexity: " ++ renderVal vCplx ++ "\n" ++
    "Purpose: " ++ renderVal vPurpose ++ "\n")

/-- mcp_server.search_code: with no indexed codebase (get_indexed_codebase
returned None) it answers the not-indexed message without searching;
otherwise it searches and formats the results. -/
def search_code (indexer : Option (String → Nat → List PyDict))
    (query : String) (max_results : Nat) : Except PyErr String :=
  match indexer with
  | none => Except.ok NOT_INDEXED_MSG
  | some searchFn =>
    let results := searchFn query max_results
    if results.isEmpty then Except.ok "No relevant files found for the query."
    else do
      let formatted ← results.foldlM (fun acc r => do
        let entry ← render_search_result r
        pure (acc ++ entry)) "Found relevant files:\n\n"
      pure formatted

/-! Parallel summarization coordinator
(CodeIndexer.generate_single_file_summary /
generate_all_summaries_parallel, src/code_indexer.py lines 935-1047).
The network is abstracted as an outcome per file path: an HTTP response
(status plus body), a timeout, or another exception. -/

/-- Outcome of one underlying summarization call. -/
inductive CallOutcome where
  | response (status : Nat) (body : String)
  | timeout
  | exnFail (msg : String)
deriving DecidableEq

/-- Whether the outcome is a success (HTTP 200). -/
def outcome_success : CallOutcome → Bool
  | CallOutcome.response status _ => status == 200
  | CallOutcome.timeout => false
  | CallOutcome.exnFail _ => false

/-- CodeIndexer.generate_single_file_summary: under the admission
semaphore (modelled separately as SemStep), issue the call and convert
every failure into a per-file error string; always returns the
(file_path, summary-or-error) pair. The content argument only feeds the
prompt of the external call and does not affect the error paths. -/
def generate_single_file_summary (outcome : CallOutcome)
    (file_path content : String) : String × String :=
  match outcome with
  | CallOutcome.response status body =>
    if status == 200 then (file_path, body)
    else (file_path, "Error: Failed to generate summary (HTTP " ++ Nat.repr status ++ ")")
  | CallOutcome.timeout => (file_path, "Error: Request timed out")
  | CallOutcome.exnFail msg => (file_path, "Error: " ++ msg)

/-- Python dict assignment results[k] = v: update in place if the key
exists, else append. -/
def resultsInsert (res : List (String × String)) (k v : String) :
    List (String × String) :=
  if res.any (fun r => r.1 == k) then
    res.map (fun r => if r.1 == k then (k, v) else r)
  else res ++ [(k, v)]

/-- Gather one chunk of tasks and fold their (path, summary) results
into the results dict (the loop body of generate_all_summaries_parallel,
lines 1023-1033; the isinstance-Exception arm is dead because every
task converts its own failure into a result pair). -/
def gather_chunk (outcomes : String → CallOutcome)
    (res : List (String × String)) (chunk : List (String × String)) :
    List (String × String) :=
  (chunk.map (fun pc => generate_single_file_summary (outcomes pc.1) pc.1 pc.2)).foldl
    (fun r kv => resultsInsert r kv.1 kv.2) res

/-- The chunked progress loop (chunk size 50), fuel-driven structural
recursion as for addInBatches. -/
def gatherAux (outcomes : String → CallOutcome) :
    Nat → List (String × String) → List (String × String) → List (String × String)
  | _, res, [] => res
  | 0, res, p :: rest => gather_chunk outcomes res (p :: rest)
  | Nat.succ fuel, res, p :: rest =>
    gatherAux outcomes fuel (gather_chunk outcomes res ((p :: rest).take 50))
      ((p :: rest).drop 50)

/-- CodeIndexer.generate_all_summaries_parallel: the path-to-summary
mapping accumulated over all chunks (insertion order). The per-chunk
progress logging is observational, but the completion log
(lines 1044-1045) computes avg seconds per file as
total_time / len(results) inside its f-string, so on an empty batch
(the only way results is empty, since every task yields a pair) the
coroutine raises ZeroDivisionError instead of returning the mapping. -/
def generate_all_summaries_parallel (outcomes : String → CallOutcome)
    (file_data : List (String × String)) :
    Except PyErr (List (String × String)) :=
  let results := gatherAux outcomes file_data.length [] file_data
  if results.isEmpty then Except.error (PyErr.zeroDivisionError "division by zero")
  else Except.ok results

/-- The coordinator contract of the partial-failure claim, for a batch
of N files of which M fail: the coordinator returns (rather than
raises) exactly the pointwise per-file mapping, keyed by every path of
the batch in order; hence it has all N paths, the N-M successful ones
map to the service body, and the M failed ones map to error-marker
strings beginning with the Error: marker. -/
def coordinator_ok (outcomes : String → CallOutcome)
    (file_data : List (String × String)) : Prop :=
  let res := file_data.map (fun pc => generate_single_file_summary (outcomes pc.1) pc.1 pc.2)
  let failures := file_data.filter (fun pc => !outcome_success (outcomes pc.1))
  generate_all_summaries_parallel outcomes file_data = Except.ok res ∧
  res.length = file_data.length ∧
  (res.filter (fun r => !outcome_success (outcomes r.1))).length = failures.length ∧
  (res.filter (fun r => outcome_success (outcomes r.1))).length
    = file_data.length - failures.length ∧
  (∀ pc ∈ file_data, res.lookup pc.1
    = some (generate_single_file_summary (outcomes pc.1) pc.1 pc.2).2) ∧
  (∀ pc ∈ file_data, !outcome_success (outcomes pc.1) →
    listPre "Error: ".data ((generate_single_file_summary (outcomes pc.1) pc.1 pc.2).2).data)

/-! Admission-semaphore transition system
(asyncio.Semaphore(self.max_concurrent) and the async-with block of
generate_single_file_summary, lines 935-937 and 1000). Each task of a
batch is in one of four phases: waiting for admission, in flight
(holding a token while its call runs), or done. The acquire transition
is the entry of async with semaphore (possible only when a token is
free); the finish transition is the exit of the async-with block, which
releases the token unconditionally, for a successful call and for a
caught failure alike (the Bool argument records the outcome and does
not influence the produced state). -/

/-- Counting abstraction of a coordinator run: free tokens, tasks not
yet admitted, in-flight calls, completed calls. -/
structure SemState where
  tokens : Nat
  waiting : Nat
  inFlight : Nat
  finished : Nat
deriving DecidableEq

/-- Initial state of a run with concurrency limit K and batch size N. -/
def semInit (K N : Nat) : SemState :=
  { tokens := K, waiting := N, inFlight := 0, finished := 0 }

/-- One scheduler step of the fan-out. -/
inductive SemStep : SemState → SemState → Prop where
  | acquire (s : SemState) (htok : 0 < s.tokens) (hw : 0 < s.waiting) :
      SemStep s { tokens := s.tokens - 1, waiting := s.waiting - 1,
                  inFlight := s.inFlight + 1, finished := s.finished }
  | finish (success : Bool) (s : SemState) (hf : 0 < s.inFlight) :
      SemStep s { tokens := s.tokens + 1, waiting := s.waiting,
                  inFlight := s.inFlight - 1, finished := s.finished + 1 }

/-- States reachable during a run. -/
def SemReachable (K N : Nat) (s : SemState) : Prop :=
  Relation.ReflTransGen SemStep (semInit K N) s

/-! Property abbreviations and concrete inputs used by the theorems
below. -/

/-- After ingest_directory, every collected path has exactly one stored
record. -/
def ingest_unique (gen : String → String → String)
    (files : List (String × String)) : Prop :=
  ∀ q ∈ files.map Prod.fst, count_for_path (ingest_directory gen files) q = 1

/-- No record of the collection already carries the path-derived id
index_file will generate for p. -/
def id_fresh (coll : List StoreRecord) (p : String) : Prop :=
  ∀ r ∈ coll, r.id ≠ "file_" ++ md5hex p

/-- Mean per-summary confidence score of a retrieved candidate set
(the quantity the router averages before boosting and clamping). -/
def summary_scores_mean (query : String) (summaries : List PyDict) : ℚ :=
  (summaries.foldl
    (fun t d => t + summary_confidence_one (pySplitWs (lowerStr query)) d) 0)
    / (summaries.length : ℚ)

/-- Query-word overlap count of one retrieved summary (the
matching_words quantity of _evaluate_summary_confidence). -/
def overlap_count (query : String) (d : PyDict) : Nat :=
  ((pySplitWs (lowerStr query)).filter
    (fun w => inStr w (lowerStr (dictGetStrD d "summary" "")))).length

/-- Whether a summary carries the lowercase structural markers of the
confidence evaluator. -/
def has_markers (d : PyDict) : Bool :=
  structure_markers.any (fun m => inStr m (lowerStr (dictGetStrD d "summary" "")))

/-- A summarization oracle for concrete runs: a fixed summary text. -/
def gen0 : String → String → String := fun _ _ => "Summary of module"

/-- A one-file ingestion batch. -/
def files1 : List (String × String) := [("a.py", "x = 1")]

/-- A two-file ingestion batch. -/
def files2 : List (String × String) := [("a.py", "x = 1"), ("b.py", "y = 2")]

/-- Store contents after ingesting files1. -/
def collA : List StoreRecord := ingest_directory gen0 files1

/-- Store contents after ingesting files2. -/
def collB : List StoreRecord := ingest_directory gen0 files2

/-- A concrete agent state: default threshold 0.6, empty query counter,
no fallback assistant. -/
def st0 : AgentState :=
  { confidence_threshold := 0.6, query_patterns := [], repo_assistant := none }

/-- A structured retrieved summary as CodeIndexer.search returns it. -/
def d_auth : PyDict :=
  searchResultDict "auth.py" "Purpose: handles authentication. **Methods:** login"
    "python" "class_based" 120 7 "Handles authentication."

/-- An indexer whose search retrieves the structured summary d_auth. -/
def search_auth : String → Nat → List PyDict := fun _ _ => [d_auth]

/-- An indexer over an empty store: search retrieves nothing. -/
def empty_search : String → Nat → List PyDict := fun _ _ => []

/-- A ten-word query sharing no word with d1 and one word with d2. -/
def q10 : String := "qa qb qc qd qe qf qg qh qi qj"

/-- A retrieved summary with structural marker and code keyword but no
query-word overlap with q10. -/
def d1 : PyDict := searchResultDict "big.py" "purpose: class" "python" "class_based" 50 3 "p."

/-- A retrieved summary with structural marker and one overlapping
query word of q10, but no code keyword. -/
def d2 : PyDict := searchResultDict "qa.py" "purpose: qa" "python" "script" 5 0 "q."

/-- A three-file coordinator batch. -/
def fd3 : List (String × String) := [("a.py", "x"), ("b.py", "y"), ("c.py", "z")]

/-- Outcomes for fd3: the middle file times out, the others succeed. -/
def out3 : String → CallOutcome := fun p =>
  if p == "b.py" then CallOutcome.timeout
  else CallOutcome.response 200 ("Summary of " ++ p)

/-- A semaphore state one acquire step into a run with limit 2 and
batch size 3. -/
def semEx : SemState := { tokens := 1, waiting := 2, inFlight := 1, finished := 0 }

/-! Theorems. Helper lemmas first, then one theorem per claim with its
witness or counterexample. -/

/-- Folding the complexity bonuses equals adding the bonus sum of the
matching indicators. -/
theorem foldl_bonus (s : String) (l : List (String × Nat)) :
    ∀ b : Nat, l.foldl (fun acc ind => if inStr ind.1 s then acc + ind.2 else acc) b
      = b + ((l.filter (fun ind => inStr ind.1 s)).map Prod.snd).sum := by
  induction l with
  | nil => intro b; simp
  | cons x xs ih =>
    intro b
    by_cases h : inStr x.1 s
    · simp [List.foldl_cons, List.filter_cons, h, ih, Nat.add_assoc]
    · simp [List.foldl_cons, List.filter_cons, h, ih]

/-- C8: the computed complexity score equals
min(min(line_count / 25, 15) + the sum of the fixed bonuses of the
complexity-indicator phrases present in the lowercased summary, 25),
and in particular never exceeds the ceiling 25. -/
theorem C8_complexity_formula (lineCount : Nat) (s : String) :
    calculate_ai_complexity lineCount s
      = min (min (lineCount / 25) 15
          + ((complexity_indicators.filter (fun ind => inStr ind.1 (lowerStr s))).map
              Prod.snd).sum) 25
    ∧ calculate_ai_complexity lineCount s ≤ 25 := by
  constructor
  · simp only [calculate_ai_complexity]
    rw [foldl_bonus]
  · simp only [calculate_ai_complexity]
    exact Nat.min_le_right _ _

/-- A character list avoiding c has no last occurrence of c. -/
theorem rIdxAux_none (c : Char) (l : List Char)
    (h : l.all (fun ch => ch != c) = true) : ∀ n, rIdxAux c l n = none := by
  induction l with
  | nil => intro n; rfl
  | cons x xs ih =>
    intro n
    simp only [List.all_cons, Bool.and_eq_true] at h
    simp only [rIdxAux, ih h.2 (n + 1)]
    have hx : (x == c) = false := by
      rcases h with ⟨h1, _⟩
      simpa [bne] using h1
    simp [hx]

/-- A path whose final component has no dot has an empty pathlib
suffix. -/
theorem path_suffix_no_dot (p : String)
    (h : (pathName p).data.all (fun ch => ch != '.') = true) :
    path_suffix p = "" := by
  have hr : rIdx '.' (pathName p).data = none := rIdxAux_none '.' _ h 0
  simp [path_suffix, hr]

/-- C10: a file whose name has no dot (such as Dockerfile or Makefile)
is not a code file and is never collected, although .dockerfile and
.makefile are members of the extension allow-set; inclusion is decided
solely by membership of the lowercased pathlib suffix in that set. -/
theorem C10_no_suffix_excluded (p q : String)
    (h : (pathName p).data.all (fun ch => ch != '.') = true) :
    is_code_file p = false ∧ collector_processes p = false ∧
    CODE_EXTENSIONS.contains ".dockerfile" = true ∧
    CODE_EXTENSIONS.contains ".makefile" = true ∧
    is_code_file q = CODE_EXTENSIONS.contains (lowerStr (path_suffix q)) := by
  have hs : path_suffix p = "" := path_suffix_no_dot p h
  have hc : is_code_file p = false := by
    simp only [is_code_file, hs]
    decide
  refine ⟨hc, ?_, by decide, by decide, rfl⟩
  simp [collector_processes, hc]

/-- Witness for C10 at the dotless names Dockerfile and Makefile. -/
theorem C10_witness :
    ((pathName "Dockerfile").data.all (fun ch => ch != '.') = true) ∧
    is_code_file "Dockerfile" = false ∧ collector_processes "Dockerfile" = false ∧
    CODE_EXTENSIONS.contains ".dockerfile" = true ∧
    CODE_EXTENSIONS.contains ".makefile" = true ∧
    is_code_file "Makefile" = CODE_EXTENSIONS.contains (lowerStr (path_suffix "Makefile")) :=
  ⟨by decide, C10_no_suffix_excluded "Dockerfile" "Makefile" (by decide)⟩

/-- C6 counterexample: for a sql-language file whose summary mentions a
class, the classification is class_based, not the language-based
database the claim asserts for sql; the sql rule is a fallback below
the keyword rules, not an override. -/
theorem C6_counterexample :
    extract_file_type "sql" "defines a class" = "class_based" ∧
    extract_file_type "sql" "defines a class" ≠ "database" := by
  constructor
  · decide
  · decide

/-- C6 amended: outside the config-format languages
(json, yaml, xml, toml, ini, cfg) and markdown - which override on
language alone - a summary containing both class and function is always
mixed_code and one containing class but not function is always
class_based; sql and docker classify as database and container only
when neither keyword occurs. -/
theorem C6_amended (language text : String)
    (hcfg : (["json", "yaml", "xml", "toml", "ini", "cfg"].contains language) = false)
    (hmd : (language == "markdown") = false) :
    (inStr "class" (lowerStr text) = true → inStr "function" (lowerStr text) = true →
      extract_file_type language text = "mixed_code") ∧
    (inStr "class" (lowerStr text) = true → inStr "function" (lowerStr text) = false →
      extract_file_type language text = "class_based") ∧
    (inStr "class" (lowerStr text) = false → inStr "function" (lowerStr text) = false →
      ((language == "sql") = true → extract_file_type language text = "database") ∧
      ((language == "docker") = true → extract_file_type language text = "container")) := by
  have hns : ¬language = "json" ∧ ¬language = "yaml" ∧ ¬language = "xml" ∧
      ¬language = "toml" ∧ ¬language = "ini" ∧ ¬language = "cfg" := by
    simpa using hcfg
  have hmd2 : ¬language = "markdown" := by simpa using hmd
  refine ⟨?_, ?_, ?_⟩
  · intro h1 h2
    simp [extract_file_type, hns, hmd2, h1, h2]
  · intro h1 h2
    simp [extract_file_type, hns, hmd2, h1, h2]
  · intro h1 h2
    constructor
    · intro hsql
      have hs : language = "sql" := by simpa using hsql
      subst hs
      simp [extract_file_type, h1, h2]
    · intro hdocker
      have hd : language = "docker" := by simpa using hdocker
      subst hd
      simp [extract_file_type, h1, h2]

/-- Witness for C6 at a python file whose summary has both markers. -/
theorem C6_amended_witness :
    ((["json", "yaml", "xml", "toml", "ini", "cfg"].contains "python") = false) ∧
    extract_file_type "python" "a class and a function" = "mixed_code" :=
  ⟨by decide,
   (C6_amended "python" "a class and a function" (by decide) (by decide)).1
     (by decide) (by decide)⟩

/-- C2: the routing condition holds exactly as the claim states it (the
query retrieves a structured summary, so the decision is the fast
path), but the fast answer is never produced: building the summary
context reads the legacy key keywords, which CodeIndexer.search results
do not carry, so the router raises KeyError instead of answering from
summaries. -/
theorem C2_fast_path_keyerror :
    route_decision st0.confidence_threshold "How does authentication work?"
      (search_auth "How does authentication work?" 5) = true ∧
    query_with_summary_first st0 (some search_auth) "How does authentication work?" 5
      = Except.error (PyErr.keyError "keywords") :=
  ⟨by with_unfolding_all decide, by with_unfolding_all rfl⟩

/-- C7 counterexample: a query issued with no codebase indexed (the
agent holds indexer None, as get_indexed_codebase returns for an empty
store) raises AttributeError from self.indexer.search instead of
returning the not-indexed response. -/
theorem C7_counterexample :
    query_with_summary_first st0 none "where is the config" 5
      = Except.error (PyErr.attributeError ATTR_ERR_MSG) := rfl

/-- C7 amended: when no codebase is indexed, the MCP search_code tool
returns the not-indexed response without searching or escalating, but
the summary router itself performs no such check: called with indexer
None it raises AttributeError. -/
theorem C7_amended (st : AgentState) (q : String) (mr : Nat) :
    search_code none q mr = Except.ok NOT_INDEXED_MSG ∧
    query_with_summary_first st none q mr
      = Except.error (PyErr.attributeError ATTR_ERR_MSG) :=
  ⟨rfl, rfl⟩

/-- C9 counterexample: a query that escalates to the fallback leaves the
query-frequency counter unchanged (the count for the query stays 0
rather than increasing by one), because the counter update sits only on
the fast summary path. -/
theorem C9_counterexample :
    query_with_summary_first st0 (some empty_search) "what is this" 5
      = Except.ok (FINAL_FALLBACK_HEAD ++ "what is this" ++ FINAL_FALLBACK_TAIL,
          false, st0) ∧
    patternCount st0.query_patterns "what is this" = 0 :=
  ⟨by with_unfolding_all rfl, rfl⟩

/-- C9 amended: only the fast summary path records the query in the
query-frequency counter; whenever the routing decision escalates, the
router returns the fallback response with the agent state - including
the counter - unchanged. -/
theorem C9_amended (st : AgentState) (searchFn : String → Nat → List PyDict)
    (q : String) (mr : Nat)
    (hdec : route_decision st.confidence_threshold q (searchFn q mr) = false) :
    query_with_summary_first st (some searchFn) q mr
      = Except.ok (fallback_to_repository st q, false, st) := by
  simp [query_with_summary_first, hdec]

/-- Witness for C9 at a concrete escalating query. -/
theorem C9_amended_witness :
    route_decision st0.confidence_threshold "show stats" (empty_search "show stats" 5)
      = false ∧
    query_with_summary_first st0 (some empty_search) "show stats" 5
      = Except.ok (fallback_to_repository st0 "show stats", false, st0) :=
  ⟨by with_unfolding_all decide,
   C9_amended st0 empty_search "show stats" 5 (by with_unfolding_all decide)⟩

/-- Every reachable state of a coordinator run keeps the free tokens
plus the in-flight calls equal to the semaphore capacity. -/
theorem sem_invariant (K N : Nat) (s : SemState) (h : SemReachable K N s) :
    s.tokens + s.inFlight = K := by
  have h2 : Relation.ReflTransGen SemStep (semInit K N) s := h
  clear h
  induction h2 with
  | refl => simp [semInit]
  | tail hsteps hstep ih =>
    cases hstep with
    | acquire htok hw =>
      dsimp only
      omega
    | finish success hf =>
      dsimp only
      omega

/-- C4: with concurrency limit K, no reachable state of a batch run has
more than K summarization calls in flight (free tokens plus in-flight
calls stay exactly K), and from any state with a call in flight the
completion transition - for a successful call and a failed one alike -
releases the admission token. -/
theorem C4_concurrency_bound (K N : Nat) (s : SemState) (success : Bool)
    (h : SemReachable K N s) :
    s.inFlight ≤ K ∧ s.tokens + s.inFlight = K ∧
    (0 < s.inFlight →
      SemStep s { tokens := s.tokens + 1, waiting := s.waiting,
                  inFlight := s.inFlight - 1, finished := s.finished + 1 }) := by
  have hi := sem_invariant K N s h
  exact ⟨by omega, hi, fun hf => SemStep.finish success s hf⟩

/-- Witness for C4 at a state one admission into a run with limit 2 and
batch size 3. -/
theorem C4_witness :
    SemReachable 2 3 semEx ∧
    (semEx.inFlight ≤ 2 ∧ semEx.tokens + semEx.inFlight = 2 ∧
      (0 < semEx.inFlight →
        SemStep semEx { tokens := semEx.tokens + 1, waiting := semEx.waiting,
                        inFlight := semEx.inFlight - 1, finished := semEx.finished + 1 })) := by
  have hstep : SemStep (semInit 2 3) semEx := by
    have h := SemStep.acquire (semInit 2 3) (by decide) (by decide)
    simpa [semInit, semEx] using h
  have hr : SemReachable 2 3 semEx := Relation.ReflTransGen.single hstep
  exact ⟨hr, C4_concurrency_bound 2 3 semEx false hr⟩

/-- Adding a concatenation equals adding the parts in order. -/
theorem collAdd_append (coll a b : List StoreRecord) :
    collAdd coll (a ++ b) = collAdd (collAdd coll a) b := by
  simp [collAdd, List.foldl_append]

/-- Adding records with pairwise distinct ids, none already stored,
appends them all. -/
theorem collAdd_all_fresh :
    ∀ (recs coll : List StoreRecord), (recs.map StoreRecord.id).Nodup →
      (∀ r ∈ recs, ∀ x ∈ coll, x.id ≠ r.id) →
      collAdd coll recs = coll ++ recs := by
  intro recs
  induction recs with
  | nil => intro coll _ _; simp [collAdd]
  | cons r rs ih =>
    intro coll hnd hfresh
    have hany : (coll.any (fun x => x.id == r.id)) = false := by
      rw [List.any_eq_false]
      intro x hx
      have := hfresh r (List.mem_cons_self r rs) x hx
      simpa using this
    have hstep1 : (if coll.any (fun x => x.id == r.id) then coll else coll ++ [r])
        = coll ++ [r] := by
      rw [hany]
      simp
    have hstep : collAdd coll (r :: rs) = collAdd (coll ++ [r]) rs := by
      unfold collAdd
      rw [List.foldl_cons, hstep1]
    rw [hstep, ih (coll ++ [r])]
    · simp
    · exact (List.nodup_cons.mp (by simpa using hnd)).2
    · intro r2 hr2 x hx
      rcases List.mem_append.mp hx with hxc | hxr
      · exact hfresh r2 (List.mem_cons_of_mem r hr2) x hxc
      · intro hEq
        have hx1 : x = r := by simpa using hxr
        have hnotin : r.id ∉ rs.map StoreRecord.id :=
          (List.nodup_cons.mp (by simpa using hnd)).1
        apply hnotin
        have hEq2 : r.id = r2.id := by rw [← hx1]; exact hEq
        rw [hEq2]
        exact List.mem_map_of_mem StoreRecord.id hr2

/-- With enough fuel, the batched add equals a single add. -/
theorem addInBatches_eq :
    ∀ (fuel : Nat) (coll recs : List StoreRecord), recs.length ≤ fuel →
      addInBatches fuel coll recs = collAdd coll recs := by
  intro fuel
  induction fuel with
  | zero =>
    intro coll recs h
    have : recs = [] := List.eq_nil_of_length_eq_zero (Nat.le_zero.mp h)
    subst this
    simp [addInBatches, collAdd]
  | succ f ih =>
    intro coll recs h
    cases recs with
    | nil => simp [addInBatches, collAdd]
    | cons r rs =>
      have hlen : ((r :: rs).drop 100).length ≤ f := by
        simp only [List.length_drop, List.length_cons]
        simp only [List.length_cons] at h
        omega
      calc addInBatches (f + 1) coll (r :: rs)
          = addInBatches f (collAdd coll ((r :: rs).take 100)) ((r :: rs).drop 100) := rfl
        _ = collAdd (collAdd coll ((r :: rs).take 100)) ((r :: rs).drop 100) :=
            ih _ _ hlen
        _ = collAdd coll ((r :: rs).take 100 ++ (r :: rs).drop 100) :=
            (collAdd_append _ _ _).symm
        _ = collAdd coll (r :: rs) := by rw [List.take_append_drop]

/-- File path stored in an ingest record. -/
theorem mkIngestRecord_path (gen : String → String → String) (i : Nat)
    (pc : String × String) :
    (mkIngestRecord gen i pc).metadata.file_path = pc.1 := rfl

/-- Id stored in an ingest record. -/
theorem mkIngestRecord_id (gen : String → String → String) (i : Nat)
    (pc : String × String) :
    (mkIngestRecord gen i pc).id = "file_" ++ Nat.repr i := rfl

/-- With pairwise distinct ids the ingest write phase stores exactly the
prepared records. -/
theorem ingest_directory_eq_records (gen : String → String → String)
    (files : List (String × String))
    (hids : ((ingestRecords gen files).map StoreRecord.id).Nodup) :
    ingest_directory gen files = ingestRecords gen files := by
  unfold ingest_directory
  rw [addInBatches_eq _ _ _ (le_refl _)]
  rw [collAdd_all_fresh _ _ hids (by intro r _ x hx; cases hx)]
  simp

/-- Filtering a mapped list counts the preimages. -/
theorem filtermap_length {α β : Type} (f : α → β) (p : β → Bool) :
    ∀ l : List α, ((l.map f).filter p).length = (l.filter (fun a => p (f a))).length := by
  intro l
  induction l with
  | nil => simp
  | cons a as ih =>
    by_cases h : p (f a) = true
    · simp [List.filter_cons, h, ih]
    · simp only [Bool.not_eq_true] at h
      simp [List.filter_cons, h, ih]

/-- Filtering an enumeration on the payload counts the payloads. -/
theorem enumFrom_filter_length {α : Type} (p : α → Bool) :
    ∀ (l : List α) (n : Nat),
      ((List.enumFrom n l).filter (fun ip => p ip.2)).length = (l.filter p).length := by
  intro l
  induction l with
  | nil => intro n; simp
  | cons a as ih =>
    intro n
    by_cases h : p a = true
    · simp [List.enumFrom, List.filter_cons, h, ih]
    · simp only [Bool.not_eq_true] at h
      simp [List.enumFrom, List.filter_cons, h, ih]

/-- An absent value is never matched by the equality filter. -/
theorem not_mem_count_zero (a : String) :
    ∀ l : List String, a ∉ l → (l.filter (fun x => x == a)).length = 0 := by
  intro l
  induction l with
  | nil => intro _; simp
  | cons x xs ih =>
    intro h
    have hx : (x == a) = false := by
      have : ¬x = a := fun hEq => h (hEq ▸ List.mem_cons_self x xs)
      simpa using this
    simp [List.filter_cons, hx, ih (fun hm => h (List.mem_cons_of_mem x hm))]

/-- In a duplicate-free list a present value is matched exactly once. -/
theorem nodup_count_one (a : String) :
    ∀ l : List String, l.Nodup → a ∈ l → (l.filter (fun x => x == a)).length = 1 := by
  intro l
  induction l with
  | nil => intro _ h; cases h
  | cons x xs ih =>
    intro hnd hmem
    rcases List.mem_cons.mp hmem with hEq | hmem2
    · subst hEq
      have hnotin : a ∉ xs := (List.nodup_cons.mp hnd).1
      simp [List.filter_cons, not_mem_count_zero a xs hnotin]
    · have hx : (x == a) = false := by
        have : ¬x = a := by
          intro hEq
          exact (List.nodup_cons.mp hnd).1 (hEq ▸ hmem2)
        simpa using this
      simp [List.filter_cons, hx, ih (List.nodup_cons.mp hnd).2 hmem2]

/-- Records surviving the path deletion never match the deleted path. -/
theorem filter_ne_filter_eq (p : String) :
    ∀ l : List StoreRecord,
      ((l.filter (fun r => r.metadata.file_path != p)).filter
        (fun r => r.metadata.file_path == p)) = [] := by
  intro l
  induction l with
  | nil => rfl
  | cons r rs ih =>
    by_cases h : (r.metadata.file_path == p) = true
    · have : (r.metadata.file_path != p) = false := by simp [bne, h]
      simp [List.filter_cons, this, ih]
    · simp only [Bool.not_eq_true] at h
      have : (r.metadata.file_path != p) = true := by simp [bne, h]
      simp [List.filter_cons, this, h, ih]

set_option maxRecDepth 16000 in
/-- C1 counterexample: ingest a.py via ingest_directory (stored under
the positional id file_0), then index the same path again via
index_file without force_reindex: the store afterwards holds two
records for a.py, because index_file adds under the MD5-derived id and
only force_reindex deletes the positional entry. -/
theorem C1_counterexample :
    count_for_path (index_file gen0 collA "a.py" "y = 2" false).2 "a.py" = 2 := by
  decide

/-- C1 amended: ingest_directory clears the store and then stores
exactly one record per collected path, but under the positional id
file_i of the walk order, not a path-derived id; index_file derives its
id from the MD5 hash of the path and leaves exactly one record for the
path only when force_reindex is true (and the MD5 id is not already
taken by a record of another path); with force_reindex false a path
already stored by ingest_directory gains a duplicate record. -/
theorem C1_amended (gen : String → String → String)
    (files : List (String × String)) (coll : List StoreRecord) (p c : String)
    (hpaths : (files.map Prod.fst).Nodup)
    (hids : ((ingestRecords gen files).map StoreRecord.id).Nodup)
    (hcode : is_code_file p = true)
    (hfresh : id_fresh coll p) :
    ingest_unique gen files ∧
    count_for_path (index_file gen coll p c true).2 p = 1 := by
  constructor
  · intro q hq
    rw [count_for_path, ingest_directory_eq_records gen files hids]
    unfold ingestRecords
    rw [filtermap_length]
    have h1 : (files.enum.filter
        (fun ip => (mkIngestRecord gen ip.1 ip.2).metadata.file_path == q)).length
        = (files.enum.filter (fun ip => ip.2.1 == q)).length := by
      simp [mkIngestRecord_path]
    rw [h1]
    have h2 := enumFrom_filter_length (fun pc : String × String => pc.1 == q) files 0
    simp only [List.enum] at h2 ⊢
    rw [h2]
    have h3 := (filtermap_length Prod.fst (fun x => x == q) files).symm
    rw [h3]
    exact nodup_count_one q (files.map Prod.fst) hpaths hq
  · have hb : (!is_code_file p) = false := by simp [hcode]
    simp only [index_file, hb, Bool.false_eq_true, if_false, if_true]
    set coll1 := coll.filter (fun r => r.metadata.file_path != p) with hcoll1
    have hany : (coll1.any
        (fun x => x.id == "file_" ++ md5hex p)) = false := by
      rw [List.any_eq_false]
      intro x hx
      have hxc : x ∈ coll := List.mem_of_mem_filter hx
      have := hfresh x hxc
      simpa using this
    have hid : (indexRecord gen p c).id = "file_" ++ md5hex p := rfl
    have hadd : collAdd coll1 [indexRecord gen p c]
        = coll1 ++ [indexRecord gen p c] := by
      have h1 : (if coll1.any (fun x => x.id == (indexRecord gen p c).id) then coll1
          else coll1 ++ [indexRecord gen p c]) = coll1 ++ [indexRecord gen p c] := by
        rw [hid, hany]
        simp
      unfold collAdd
      rw [List.foldl_cons]
      simp only [List.foldl_nil]
      exact h1
    rw [hadd, count_for_path, List.filter_append, List.length_append]
    rw [hcoll1, filter_ne_filter_eq]
    have hpathEq : (indexRecord gen p c).metadata.file_path = p := rfl
    simp [hpathEq]

set_option maxRecDepth 16000 in
/-- Witness for C1 at a two-file ingest followed by a forced re-index of
a third path. -/
theorem C1_amended_witness :
    (files2.map Prod.fst).Nodup ∧
    ((ingestRecords gen0 files2).map StoreRecord.id).Nodup ∧
    is_code_file "c.py" = true ∧
    id_fresh collB "c.py" ∧
    ingest_unique gen0 files2 ∧
    count_for_path (index_file gen0 collB "c.py" "z = 3" true).2 "c.py" = 1 := by
  have h1 : (files2.map Prod.fst).Nodup := by decide
  have h2 : ((ingestRecords gen0 files2).map StoreRecord.id).Nodup := by decide
  have h3 : is_code_file "c.py" = true := by decide
  have h4 : id_fresh collB "c.py" := by
    unfold id_fresh
    decide
  have hmain := C1_amended gen0 files2 collB "c.py" "z = 3" h1 h2 h3 h4
  exact ⟨h1, h2, h3, h4, hmain.1, hmain.2⟩

/-- The produced pair of the per-file worker is always keyed by its
file path. -/
theorem gen_single_fst (o : CallOutcome) (p c : String) :
    (generate_single_file_summary o p c).1 = p := by
  cases o with
  | response status body =>
    by_cases h : (status == 200) = true
    · simp [generate_single_file_summary, h]
    · simp only [Bool.not_eq_true] at h
      simp [generate_single_file_summary, h]
  | timeout => rfl
  | exnFail msg => rfl

/-- Inserting a fresh key into the results dict appends. -/
theorem resultsInsert_fresh (res : List (String × String)) (k v : String)
    (h : (res.any (fun r => r.1 == k)) = false) :
    resultsInsert res k v = res ++ [(k, v)] := by
  unfold resultsInsert
  rw [h]
  simp

/-- Folding inserts of pairwise-fresh keys appends them all in order. -/
theorem foldl_insert_fresh :
    ∀ (kvs res : List (String × String)), (kvs.map Prod.fst).Nodup →
      (∀ kv ∈ kvs, ∀ r ∈ res, r.1 ≠ kv.1) →
      kvs.foldl (fun r kv => resultsInsert r kv.1 kv.2) res = res ++ kvs := by
  intro kvs
  induction kvs with
  | nil => intro res _ _; simp
  | cons kv rest ih =>
    intro res hnd hfresh
    have hany : (res.any (fun r => r.1 == kv.1)) = false := by
      rw [List.any_eq_false]
      intro x hx
      have := hfresh kv (List.mem_cons_self kv rest) x hx
      simpa using this
    rw [List.foldl_cons, resultsInsert_fresh res kv.1 kv.2 hany]
    rw [ih (res ++ [(kv.1, kv.2)])]
    · simp
    · exact (List.nodup_cons.mp (by simpa using hnd)).2
    · intro kv2 hkv2 x hx
      rcases List.mem_append.mp hx with hxc | hxr
      · exact hfresh kv2 (List.mem_cons_of_mem kv hkv2) x hxc
      · intro hEq
        have hx1 : x = (kv.1, kv.2) := by simpa using hxr
        have hnotin : kv.1 ∉ rest.map Prod.fst :=
          (List.nodup_cons.mp (by simpa using hnd)).1
        apply hnotin
        have hEq2 : kv.1 = kv2.1 := by
          rw [hx1] at hEq
          simpa using hEq
        rw [hEq2]
        exact List.mem_map_of_mem Prod.fst hkv2

/-- Gathering a concatenation of chunks equals gathering them in order. -/
theorem gather_chunk_append (outcomes : String → CallOutcome)
    (res a b : List (String × String)) :
    gather_chunk outcomes res (a ++ b)
      = gather_chunk outcomes (gather_chunk outcomes res a) b := by
  simp [gather_chunk, List.map_append, List.foldl_append]

/-- With enough fuel the chunked gather equals a single gather. -/
theorem gatherAux_eq (outcomes : String → CallOutcome) :
    ∀ (fuel : Nat) (res rest : List (String × String)), rest.length ≤ fuel →
      gatherAux outcomes fuel res rest = gather_chunk outcomes res rest := by
  intro fuel
  induction fuel with
  | zero =>
    intro res rest h
    have : rest = [] := List.eq_nil_of_length_eq_zero (Nat.le_zero.mp h)
    subst this
    simp [gatherAux, gather_chunk]
  | succ f ih =>
    intro res rest h
    cases rest with
    | nil => simp [gatherAux, gather_chunk]
    | cons r rs =>
      have hlen : ((r :: rs).drop 50).length ≤ f := by
        simp only [List.length_drop, List.length_cons]
        simp only [List.length_cons] at h
        omega
      calc gatherAux outcomes (f + 1) res (r :: rs)
          = gatherAux outcomes f (gather_chunk outcomes res ((r :: rs).take 50))
              ((r :: rs).drop 50) := rfl
        _ = gather_chunk outcomes (gather_chunk outcomes res ((r :: rs).take 50))
              ((r :: rs).drop 50) := ih _ _ hlen
        _ = gather_chunk outcomes res ((r :: rs).take 50 ++ (r :: rs).drop 50) :=
            (gather_chunk_append _ _ _ _).symm
        _ = gather_chunk outcomes res (r :: rs) := by rw [List.take_append_drop]

/-- Gathering a chunk of pairwise-distinct fresh paths appends the
pointwise per-file results. -/
theorem gather_chunk_fresh (outcomes : String → CallOutcome)
    (chunk res : List (String × String))
    (hnd : (chunk.map Prod.fst).Nodup)
    (hfresh : ∀ pc ∈ chunk, ∀ r ∈ res, r.1 ≠ pc.1) :
    gather_chunk outcomes res chunk
      = res ++ chunk.map (fun pc => generate_single_file_summary (outcomes pc.1) pc.1 pc.2) := by
  unfold gather_chunk
  rw [foldl_insert_fresh]
  · have hkeys : (chunk.map
        (fun pc => generate_single_file_summary (outcomes pc.1) pc.1 pc.2)).map Prod.fst
        = chunk.map Prod.fst := by
      rw [List.map_map]
      simp [Function.comp, gen_single_fst]
    rw [hkeys]
    exact hnd
  · intro kv hkv x hx
    rcases List.mem_map.mp hkv with ⟨pc, hpc, hkveq⟩
    have hkv1 : kv.1 = pc.1 := by rw [← hkveq]; exact gen_single_fst _ _ _
    rw [hkv1]
    exact hfresh pc hpc x hx

/-- Filter and its complement partition the length. -/
theorem filter_not_filter_length {α : Type} (p : α → Bool) :
    ∀ l : List α, (l.filter p).length + (l.filter (fun a => !p a)).length = l.length := by
  intro l
  induction l with
  | nil => simp
  | cons a as ih =>
    by_cases h : p a = true
    · simp [List.filter_cons, h, ← ih]
      omega
    · simp only [Bool.not_eq_true] at h
      simp [List.filter_cons, h, ← ih]
      omega

/-- In the mapped results of a duplicate-free batch, looking up a path
yields its per-file result. -/
theorem lookup_map_result (outcomes : String → CallOutcome) :
    ∀ (fd : List (String × String)), (fd.map Prod.fst).Nodup →
      ∀ pc ∈ fd,
        (fd.map (fun x => generate_single_file_summary (outcomes x.1) x.1 x.2)).lookup pc.1
          = some (generate_single_file_summary (outcomes pc.1) pc.1 pc.2).2 := by
  intro fd
  induction fd with
  | nil => intro _ pc h; cases h
  | cons x rest ih =>
    intro hnd pc hmem
    have hx : generate_single_file_summary (outcomes x.1) x.1 x.2
        = (x.1, (generate_single_file_summary (outcomes x.1) x.1 x.2).2) := by
      have h1 := gen_single_fst (outcomes x.1) x.1 x.2
      exact Prod.ext h1 rfl
    rcases List.mem_cons.mp hmem with hEq | hm
    · subst hEq
      rw [List.map_cons, hx, List.lookup]
      simp
    · have hne : (pc.1 == x.1) = false := by
        have hnotin : x.1 ∉ rest.map Prod.fst :=
          (List.nodup_cons.mp (by simpa using hnd)).1
        have hpcin : pc.1 ∈ rest.map Prod.fst := List.mem_map_of_mem Prod.fst hm
        have : ¬pc.1 = x.1 := fun hEq => hnotin (hEq ▸ hpcin)
        simpa using this
      rw [List.map_cons, hx, List.lookup, hne]
      exact ih (List.nodup_cons.mp (by simpa using hnd)).2 pc hm

/-- The first list being an initial segment survives extending the
second list on the right. -/
theorem listPre_of_append (pat : List Char) :
    ∀ (l1 l2 : List Char), listPre pat l1 = true → listPre pat (l1 ++ l2) = true := by
  induction pat with
  | nil => intro l1 l2 _; rfl
  | cons p ps ih =>
    intro l1 l2 h
    cases l1 with
    | nil => cases h
    | cons b bs =>
      simp only [listPre, Bool.and_eq_true] at h
      simp only [List.cons_append, listPre, Bool.and_eq_true]
      exact ⟨h.1, ih bs l2 h.2⟩

/-- Every failed call produces a result string starting with the
Error: marker. -/
theorem error_marker (o : CallOutcome) (p c : String)
    (h : outcome_success o = false) :
    listPre "Error: ".data ((generate_single_file_summary o p c).2).data = true := by
  cases o with
  | response status body =>
    have hs : (status == 200) = false := by simpa [outcome_success] using h
    simp only [generate_single_file_summary, hs, Bool.false_eq_true, if_false]
    have hdata : ("Error: Failed to generate summary (HTTP " ++ Nat.repr status ++ ")").data
        = ("Error: Failed to generate summary (HTTP ".data ++ (Nat.repr status).data)
          ++ ")".data := by
      simp
    rw [hdata]
    apply listPre_of_append
    apply listPre_of_append
    decide
  | timeout =>
    show listPre "Error: ".data ("Error: Request timed out").data = true
    decide
  | exnFail msg =>
    simp only [generate_single_file_summary]
    have hdata : ("Error: " ++ msg).data = "Error: ".data ++ msg.data := by simp
    rw [hdata]
    apply listPre_of_append
    decide

/-- C3 counterexample: on the empty batch (N = 0, M = 0) the
coordinator does not return the (empty) mapping: the completion log
divides total_time by len(results) and raises ZeroDivisionError. -/
theorem C3_counterexample :
    generate_all_summaries_parallel out3 []
      = Except.error (PyErr.zeroDivisionError "division by zero") ∧
    (generate_all_summaries_parallel out3 []).isOk = false :=
  ⟨rfl, rfl⟩

/-- C3 amended: for every nonempty batch of distinct paths, the
coordinator returns (rather than raises) exactly the pointwise
per-file mapping - all N paths present, the failing calls mapped to
Error-marked strings and the successes to the service bodies, with no
failure escaping the coordinator or disturbing a sibling result; on
the empty batch the coordinator instead raises ZeroDivisionError from
its completion log. -/
theorem C3_partial_failure (outcomes : String → CallOutcome)
    (file_data : List (String × String))
    (hne : file_data ≠ [])
    (hnodup : (file_data.map Prod.fst).Nodup) :
    coordinator_ok outcomes file_data := by
  have hgather : gatherAux outcomes file_data.length [] file_data
      = file_data.map (fun pc => generate_single_file_summary (outcomes pc.1) pc.1 pc.2) := by
    rw [gatherAux_eq outcomes file_data.length [] file_data (le_refl _)]
    rw [gather_chunk_fresh outcomes file_data [] hnodup (by intro pc _ x hx; cases hx)]
    simp
  have hok : generate_all_summaries_parallel outcomes file_data
      = Except.ok (file_data.map
          (fun pc => generate_single_file_summary (outcomes pc.1) pc.1 pc.2)) := by
    simp only [generate_all_summaries_parallel, hgather]
    cases file_data with
    | nil => exact absurd rfl hne
    | cons x xs => simp
  simp only [coordinator_ok]
  refine ⟨hok, ?_, ?_, ?_, ?_, ?_⟩
  · rw [List.length_map]
  · rw [filtermap_length]
    simp only [gen_single_fst]
  · rw [filtermap_length]
    simp only [gen_single_fst]
    have hsum := filter_not_filter_length
      (fun pc : String × String => outcome_success (outcomes pc.1)) file_data
    omega
  · intro pc hmem
    exact lookup_map_result outcomes file_data hnodup pc hmem
  · intro pc hmem hfail
    have hf : outcome_success (outcomes pc.1) = false := by
      simpa using hfail
    exact error_marker (outcomes pc.1) pc.1 pc.2 hf

set_option maxRecDepth 16000 in
/-- Witness for C3 at a nonempty three-file batch with one timeout. -/
theorem C3_partial_failure_witness :
    fd3 ≠ [] ∧ (fd3.map Prod.fst).Nodup ∧ coordinator_ok out3 fd3 :=
  ⟨by decide, by decide, C3_partial_failure out3 fd3 (by decide) (by decide)⟩

/-- Folding score additions equals adding the mapped sum. -/
theorem foldl_add_score (f : PyDict → ℚ) :
    ∀ (l : List PyDict) (a : ℚ),
      l.foldl (fun t e => t + f e) a = a + (l.map f).sum := by
  intro l
  induction l with
  | nil => intro a; simp
  | cons e es ih =>
    intro a
    rw [List.foldl_cons, ih, List.map_cons, List.sum_cons]
    ring

/-- Every per-summary confidence contribution is nonnegative. -/
theorem summary_confidence_one_nonneg (qw : List String) (e : PyDict) :
    0 ≤ summary_confidence_one qw e := by
  unfold summary_confidence_one
  dsimp only
  refine add_nonneg (add_nonneg (add_nonneg ?_ ?_) ?_) ?_
  · exact mul_nonneg (le_min (by positivity) (by norm_num)) (by norm_num)
  · split <;> norm_num
  · refine mul_nonneg ?_ (by norm_num)
    split
    · norm_num
    · positivity
  · split <;> norm_num

/-- Closed form of the confidence of a nonempty candidate set. -/
theorem evaluate_cons_eq (query : String) (x : PyDict) (xs : List PyDict) :
    evaluate_summary_confidence query (x :: xs)
      = min (if 1 < (x :: xs).length then
          (((x :: xs).map (summary_confidence_one (pySplitWs (lowerStr query)))).sum
            / ((x :: xs).length : ℚ)) * 1.2
        else
          (((x :: xs).map (summary_confidence_one (pySplitWs (lowerStr query)))).sum
            / ((x :: xs).length : ℚ))) 1 := by
  simp only [evaluate_summary_confidence, List.isEmpty_cons, Bool.false_eq_true,
    if_false, foldl_add_score, zero_add]

set_option maxRecDepth 16000 in
/-- C5 counterexample: adding to the one-element candidate set of d1 the
summary d2 - which has strictly more query-term overlap than d1 and
carries the structural markers - strictly decreases the computed
confidence, because confidence averages the per-summary scores and the
new summary scores below the existing mean. -/
theorem C5_counterexample :
    overlap_count q10 d1 < overlap_count q10 d2 ∧
    has_markers d2 = true ∧
    evaluate_summary_confidence q10 [d1, d2] < evaluate_summary_confidence q10 [d1] := by
  refine ⟨by decide, by decide, ?_⟩
  with_unfolding_all decide

/-- C5 amended: adding one further summary to a nonempty candidate set
never decreases the computed confidence provided the added summary
scores at least the mean per-summary confidence score of the existing
candidates; the overlap and structural-marker conditions of the claim
alone do not suffice. -/
theorem C5_amended (query : String) (summaries : List PyDict) (d : PyDict)
    (hne : summaries ≠ [])
    (hscore : summary_scores_mean query summaries
      ≤ summary_confidence_one (pySplitWs (lowerStr query)) d) :
    evaluate_summary_confidence query summaries
      ≤ evaluate_summary_confidence query (summaries ++ [d]) := by
  cases summaries with
  | nil => exact absurd rfl hne
  | cons x xs =>
    have hmean : (((x :: xs).map
        (summary_confidence_one (pySplitWs (lowerStr query)))).sum
          / ((x :: xs).length : ℚ))
        ≤ summary_confidence_one (pySplitWs (lowerStr query)) d := by
      have h0 := hscore
      unfold summary_scores_mean at h0
      rw [foldl_add_score, zero_add] at h0
      exact h0
    rw [evaluate_cons_eq]
    rw [List.cons_append, evaluate_cons_eq]
    simp only [List.length_cons, List.length_append, List.length_cons,
      List.length_nil, List.map_cons, List.map_append, List.map_cons,
      List.map_nil, List.sum_cons, List.sum_append, List.sum_cons,
      List.sum_nil, add_zero] at hmean ⊢
    set F := summary_confidence_one (pySplitWs (lowerStr query)) with hF
    set m := xs.length with hm
    set T := F x + (xs.map F).sum with hT
    have hTnonneg : (0:ℚ) ≤ T := by
      rw [hT]
      refine add_nonneg (summary_confidence_one_nonneg _ x) ?_
      apply List.sum_nonneg
      intro q hq
      rcases List.mem_map.mp hq with ⟨e, _, rfl⟩
      exact summary_confidence_one_nonneg _ e
    have hs0 : (0:ℚ) ≤ F d := summary_confidence_one_nonneg _ d
    have hd1 : (0:ℚ) < ((m:ℚ) + 1) := by positivity
    have hd2 : (0:ℚ) < ((m:ℚ) + 1 + 1) := by positivity
    have hmean2 : T / ((m:ℚ) + 1) ≤ F d := by
      have hcast : ((m + 1 : ℕ) : ℚ) = (m : ℚ) + 1 := by push_cast; ring
      calc T / ((m:ℚ) + 1) = T / ((m + 1 : ℕ) : ℚ) := by rw [hcast]
        _ ≤ F d := by
            have := hmean
            rw [hT]
            convert this using 2
    have hTle : T ≤ F d * ((m:ℚ) + 1) := by
      rw [div_le_iff hd1] at hmean2
      exact hmean2
    have hkey : T / ((m:ℚ) + 1) ≤ (T + F d) / ((m:ℚ) + 1 + 1) := by
      rw [div_le_div_iff hd1 hd2]
      nlinarith [hTle]
    have hcast1 : ((m + 1 : ℕ) : ℚ) = (m : ℚ) + 1 := by push_cast; ring
    have hcast2 : ((m + 1 + 1 : ℕ) : ℚ) = (m : ℚ) + 1 + 1 := by push_cast; ring
    have hrhsTrue : (1 < m + 1 + 1) = True := by
      simp
    rw [hcast1, hcast2, if_pos (by omega : 1 < m + 1 + 1)]
    have hsum2 : F x + ((xs.map F).sum + F d) = T + F d := by rw [hT]; ring
    rw [hsum2]
    by_cases hcase : 1 < m + 1
    · rw [if_pos hcase]
      refine min_le_min ?_ (le_refl 1)
      exact mul_le_mul_of_nonneg_right hkey (by norm_num)
    · rw [if_neg hcase]
      refine min_le_min ?_ (le_refl 1)
      have h3 : (0:ℚ) ≤ (T + F d) / ((m:ℚ) + 1 + 1) :=
        div_nonneg (add_nonneg hTnonneg hs0) (le_of_lt hd2)
      calc T / ((m:ℚ) + 1) ≤ (T + F d) / ((m:ℚ) + 1 + 1) := hkey
        _ ≤ (T + F d) / ((m:ℚ) + 1 + 1) * 1.2 := by nlinarith [h3]

set_option maxRecDepth 16000 in
/-- Witness for C5 at a set holding d2 extended by the higher-scoring
d1. -/
theorem C5_amended_witness :
    ([d2] : List PyDict) ≠ [] ∧
    summary_scores_mean q10 [d2]
      ≤ summary_confidence_one (pySplitWs (lowerStr q10)) d1 ∧
    evaluate_summary_confidence q10 [d2]
      ≤ evaluate_summary_confidence q10 ([d2] ++ [d1]) := by
  refine ⟨by decide, by with_unfolding_all decide, ?_⟩
  exact C5_amended q10 [d2] d1 (by decide) (by with_unfolding_all decide)

end RepoAgent
